import Mathlib

/-!
Verification of the email-automation repository's triage-and-draft core.

The development shallowly embeds the draft-lifecycle PATCH route
(web/app/api/drafts/[id]/route.ts), the AI-edit completion route
(web/app/api/drafts/[id]/ai-edit/route.ts), and the settings route
(web/app/api/settings/route.ts) over an explicit relational store mirroring
database/schema.sql and its migrations.  Components whose implementation is
not part of the repository snapshot (normalizer/deduplicator, rate limiter)
are modelled from the specification and marked as such.
-/

namespace EmailAutomation

/-- JavaScript `x || null` on an optional string: an absent or empty string
collapses to null. -/
def jsOr (o : Option String) : Option String :=
  match o with
  | none => none
  | some s => if s = "" then none else some s

/-- JavaScript `x || dflt` on an optional string: an absent or empty string
falls back to the default. -/
def jsOrD (o : Option String) (dflt : String) : String :=
  match o with
  | none => dflt
  | some s => if s = "" then dflt else s

/-- A row of `draft_responses` (schema.sql plus the approval-workflow and
version-history migration columns).  Columns never read or written by the
embedded routes (`raw_data`, timestamps maintained by SQLite defaults) are
projected away. -/
structure Draft where
  id : Nat
  email_id : String
  draft_text : String
  model_used : Option String
  status : String
  edited_text : Option String
  approved_at : Option String
  approved_by : Option String
  rejected_at : Option String
  rejected_by : Option String
  rejection_reason : Option String
  sent_at : Option String
  sent_via : Option String
  feedback_score : Option Int
  feedback_notes : Option String
  current_version : Nat
  total_versions : Nat
deriving Repr, DecidableEq

/-- The JSON `metadata` column of `draft_approval_history`, rendered
structurally: one constructor per object shape the routes serialize. -/
inductive Metadata where
  | editLen (length : Nat)
  | sentVia (via : String)
  | score (score : Int)
  | version (version : Nat)
  | aiEdit (model : String) (instruction : Option String)
      (prev_length : Nat) (new_length : Nat)
deriving Repr, DecidableEq

/-- A row of `draft_approval_history` (migration 001). -/
structure HistoryEvent where
  draft_id : Nat
  action : String
  performed_by : String
  performed_at : String
  notes : Option String
  metadata : Option Metadata
deriving Repr, DecidableEq

/-- A row of `draft_versions` (version-history migration). -/
structure DraftVersion where
  draft_id : Nat
  version_number : Nat
  draft_text : String
  model_used : Option String
  created_by : String
  notes : Option String
deriving Repr, DecidableEq

/-- The slice of the SQLite database the draft routes touch: the
`draft_responses`, `draft_approval_history` and `draft_versions` tables,
each as an insertion-ordered list of rows. -/
structure Store where
  draft_responses : List Draft
  draft_approval_history : List HistoryEvent
  draft_versions : List DraftVersion
deriving Repr, DecidableEq

/-- The `...data` fields of the PATCH request body.  `text`, `score` and
`version` are modelled as always supplied, since every embedded call site
provides them for the actions that read them. -/
structure PatchData where
  by_ : Option String := none
  notes : Option String := none
  reason : Option String := none
  text : String := ""
  via : Option String := none
  score : Int := 0
  version : Nat := 0
deriving Repr, DecidableEq

/-- Outcome of a route call: the JSON response, stripped to the fields the
routes set. -/
inductive ApiResult where
  | ok (action : String) (id : Nat)
  | okAiEdit (id : Nat) (versionSaved : Nat)
  | clientError (status : Nat) (error : String)
deriving Repr, DecidableEq

/-- `SELECT ... FROM draft_responses WHERE id = ?` — first row with the id. -/
def findDraft (s : Store) (id : Nat) : Option Draft :=
  s.draft_responses.find? (fun d => d.id == id)

/-- `UPDATE draft_responses SET ... WHERE id = ?` — rewrite every row whose
id matches. -/
def updateDraft (s : Store) (id : Nat) (f : Draft → Draft) : Store :=
  { s with draft_responses :=
      s.draft_responses.map (fun d => if d.id == id then f d else d) }

/-- `INSERT INTO draft_approval_history ...` — append one audit row. -/
def appendHistory (s : Store) (e : HistoryEvent) : Store :=
  { s with draft_approval_history := s.draft_approval_history ++ [e] }

/-- `INSERT INTO draft_versions ...` — append one snapshot row. -/
def appendVersion (s : Store) (v : DraftVersion) : Store :=
  { s with draft_versions := s.draft_versions ++ [v] }

/-- The SET clause of the approve case: `approved_at`, `approved_by`,
`status = 'approved'`. -/
def approveUpdate (data : PatchData) (now : String) (d : Draft) : Draft :=
  { d with approved_at := some now,
           approved_by := some (jsOrD data.by_ "user"),
           status := "approved" }

/-- The SET clause of the reject case: `rejected_at`, `rejected_by`,
`rejection_reason`, `status = 'rejected'`. -/
def rejectUpdate (data : PatchData) (now : String) (d : Draft) : Draft :=
  { d with rejected_at := some now,
           rejected_by := some (jsOrD data.by_ "user"),
           rejection_reason := jsOr data.reason,
           status := "rejected" }

/-- The SET clause of the edit case: `edited_text` only. -/
def editUpdate (data : PatchData) (d : Draft) : Draft :=
  { d with edited_text := some data.text }

/-- The SET clause of the sent case: `sent_at`, `sent_via`,
`status = 'sent'`. -/
def sentUpdate (data : PatchData) (now : String) (d : Draft) : Draft :=
  { d with sent_at := some now,
           sent_via := some (jsOrD data.via "manual"),
           status := "sent" }

/-- The SET clause of the rate case: `feedback_score`, `feedback_notes`. -/
def rateUpdate (data : PatchData) (d : Draft) : Draft :=
  { d with feedback_score := some data.score,
           feedback_notes := jsOr data.notes }

/-- The SET clause of the save_version case:
`total_versions = total_versions + 1`. -/
def saveVersionUpdate (d : Draft) : Draft :=
  { d with total_versions := d.total_versions + 1 }

/-- The SET clause of the restore_version case: `draft_text` from the
snapshot, `current_version` to the restored number. -/
def restoreUpdate (version : DraftVersion) (v : Nat) (d : Draft) : Draft :=
  { d with draft_text := version.draft_text, current_version := v }

/-- The PATCH handler of web/app/api/drafts/[id]/route.ts: a switch on
`action` with cases approve, reject, edit, sent, rate, save_version,
restore_version, and a default returning 400.  `now` stands for
`new Date().toISOString()`. -/
def patch (s : Store) (id : Nat) (action : String) (data : PatchData)
    (now : String) : ApiResult × Store :=
  if action = "approve" then
    let s1 := updateDraft s id (approveUpdate data now)
    let s2 := appendHistory s1
      ⟨id, "approved", jsOrD data.by_ "user", now, jsOr data.notes, none⟩
    (ApiResult.ok "approve" id, s2)
  else if action = "reject" then
    let s1 := updateDraft s id (rejectUpdate data now)
    let s2 := appendHistory s1
      ⟨id, "rejected", jsOrD data.by_ "user", now, jsOr data.reason, none⟩
    (ApiResult.ok "reject" id, s2)
  else if action = "edit" then
    let s1 := updateDraft s id (editUpdate data)
    let s2 := appendHistory s1
      ⟨id, "edited", jsOrD data.by_ "user", now, jsOr data.notes,
        some (Metadata.editLen data.text.length)⟩
    (ApiResult.ok "edit" id, s2)
  else if action = "sent" then
    let s1 := updateDraft s id (sentUpdate data now)
    let s2 := appendHistory s1
      ⟨id, "sent", jsOrD data.by_ "user", now, jsOr data.notes,
        some (Metadata.sentVia (jsOrD data.via "manual"))⟩
    (ApiResult.ok "sent" id, s2)
  else if action = "rate" then
    if data.score < 1 ∨ data.score > 5 then
      (ApiResult.clientError 400 "Score must be 1-5", s)
    else
      let s1 := updateDraft s id (rateUpdate data)
      let s2 := appendHistory s1
        ⟨id, "rated", jsOrD data.by_ "user", now, jsOr data.notes,
          some (Metadata.score data.score)⟩
      (ApiResult.ok "rate" id, s2)
  else if action = "save_version" then
    match findDraft s id with
    | some currentDraft =>
      let newVersion := if currentDraft.total_versions = 0 then 1
                        else currentDraft.total_versions
      let s1 := appendVersion s
        ⟨id, newVersion, currentDraft.draft_text, currentDraft.model_used,
          jsOrD data.by_ "user", jsOr data.notes⟩
      let s2 := updateDraft s1 id saveVersionUpdate
      (ApiResult.ok "save_version" id, s2)
    | none => (ApiResult.ok "save_version" id, s)
  else if action = "restore_version" then
    match s.draft_versions.find? (fun v =>
        v.draft_id == id && v.version_number == data.version) with
    | none =>
      (ApiResult.clientError 404
        ("Version " ++ toString data.version ++ " not found"), s)
    | some version =>
      let s1 := updateDraft s id (restoreUpdate version data.version)
      let s2 := appendHistory s1
        ⟨id, "restored", jsOrD data.by_ "user", now,
          some ("Restored to version " ++ toString data.version),
          some (Metadata.version data.version)⟩
      (ApiResult.ok "restore_version" id, s2)
  else
    (ApiResult.clientError 400 ("Unknown action: " ++ action), s)

/-- The SET clause of the AI-edit completion: `edited_text`, `model_used`,
`total_versions = COALESCE(total_versions, 1) + 1`. -/
def aiEditUpdate (newDraftText : String) (model : Option String) (d : Draft) :
    Draft :=
  { d with edited_text := some newDraftText,
           model_used := some (jsOrD model "claude-opus"),
           total_versions := d.total_versions + 1 }

/-- The POST handler of web/app/api/drafts/[id]/ai-edit/route.ts that
Clawdbot calls to deliver an AI edit: snapshot the current draft text as a
version, write the new text into `edited_text`, bump `total_versions`, and
log one `ai_edited` history row.  An empty `newDraftText` models the falsy
request-body check. -/
def aiEditComplete (s : Store) (id : Nat) (instruction : Option String)
    (newDraftText : String) (model : Option String) (now : String) :
    ApiResult × Store :=
  if newDraftText = "" then
    (ApiResult.clientError 400 "newDraftText is required", s)
  else
    match findDraft s id with
    | none => (ApiResult.clientError 404 "Draft not found", s)
    | some currentDraft =>
      let newVersionNum := if currentDraft.total_versions = 0 then 1
                           else currentDraft.total_versions
      let s1 := appendVersion s
        ⟨id, newVersionNum, currentDraft.draft_text, currentDraft.model_used,
          "ai-edit", some (jsOrD instruction "AI edit")⟩
      let s2 := updateDraft s1 id (aiEditUpdate newDraftText model)
      let s3 := appendHistory s2
        ⟨id, "ai_edited", "claude-opus", now,
          some (jsOrD instruction "AI edit"),
          some (Metadata.aiEdit (jsOrD model "claude-opus") instruction
            currentDraft.draft_text.length newDraftText.length)⟩
      (ApiResult.okAiEdit id newVersionNum, s3)

/-- The live text of a draft, `edited_text || draft_text` as read by the
AI-edit context endpoints. -/
def liveText (d : Draft) : String :=
  jsOrD d.edited_text d.draft_text

/-- Modelled from the spec: the Normalizer's input, a raw provider message.
The normalizer/deduplicator implementation is not part of the repository
snapshot; only the `emails` table of schema.sql and the documented dedup key
(subject + from + rounded timestamp) witness it.  `timestamp` is epoch
seconds. -/
structure RawMessage where
  subject : String
  from_email : String
  timestamp : Nat
  body : String
deriving Repr, DecidableEq

/-- Modelled from the spec: text normalization applied to the fingerprint
components — lowercasing, character by character. -/
def normalizeText (t : String) : String :=
  String.mk (t.data.map Char.toLower)

/-- Modelled from the spec: the dedup fingerprint over normalized subject,
normalized from-address, and the timestamp rounded to a coarse (minute)
bucket. -/
def dedupKey (m : RawMessage) : String × String × Nat :=
  (normalizeText m.subject, normalizeText m.from_email, m.timestamp / 60)

/-- Modelled from the spec: the persisted Email record as far as
deduplication is concerned — its stored fingerprint plus content. -/
structure EmailRecord where
  dedup_key : String × String × Nat
  subject : String
  from_email : String
  received_at : Nat
  body : String
deriving Repr, DecidableEq

/-- Outcome of ingesting one raw message. -/
inductive IngestResult where
  | inserted
  | alreadyIngested
deriving Repr, DecidableEq

/-- Whether some stored Email record already carries the fingerprint. -/
def containsKey (store : List EmailRecord) (k : String × String × Nat) : Bool :=
  store.any (fun e => e.dedup_key = k)

/-- Modelled from the spec: the Normalizer plus Deduplicator step.  A
fingerprint collision means the message is already ingested — the store is
left unchanged and no error is raised; otherwise a new Email record is
persisted. -/
def ingest (store : List EmailRecord) (m : RawMessage) :
    IngestResult × List EmailRecord :=
  if containsKey store (dedupKey m) then
    (IngestResult.alreadyIngested, store)
  else
    (IngestResult.inserted,
      store ++ [⟨dedupKey m, m.subject, m.from_email, m.timestamp, m.body⟩])

/-- Modelled from the spec: configuration of the Rate Limiter & Usage
Tracker.  Times are in minutes. -/
structure LimiterConfig where
  maxDraftsPerRun : Nat
  dedupWindowMinutes : Nat
  hourlyCap : Nat
  dailyCap : Nat
deriving Repr, DecidableEq

/-- A row of `draft_generation_log` (migration 003), as far as the
per-sender dedup window reads it; `generated_at` in minutes. -/
structure DraftLogEntry where
  sender_email : String
  generated_at : Nat
deriving Repr, DecidableEq

/-- The typed refusals of the rate limiter (spec §4.5). -/
inductive RateLimitRefusal where
  | RunCapExceeded
  | DuplicateWindow
  | HourlyCapExceeded
  | DailyCapExceeded
deriving Repr, DecidableEq

/-- A rate-limiter decision: allow the generation call or refuse it with a
typed refusal. -/
inductive LimiterDecision where
  | allowed
  | refused (r : RateLimitRefusal)
deriving Repr, DecidableEq

/-- Modelled from the spec: the rate-limiter gate, checked before any
generation call, in the order the spec lists the limits: per-run cap,
per-sender dedup window over the draft log, rolling hourly cap, rolling
daily cap over the usage ledger (`usage` holds call timestamps in
minutes). -/
def checkRateLimit (cfg : LimiterConfig) (runCount : Nat)
    (draftLog : List DraftLogEntry) (usage : List Nat) (sender : String)
    (now : Nat) : LimiterDecision :=
  if cfg.maxDraftsPerRun ≤ runCount then
    LimiterDecision.refused RateLimitRefusal.RunCapExceeded
  else if draftLog.any (fun e =>
      e.sender_email == sender && now - e.generated_at < cfg.dedupWindowMinutes) then
    LimiterDecision.refused RateLimitRefusal.DuplicateWindow
  else if cfg.hourlyCap ≤ (usage.filter (fun t => now - t < 60)).length then
    LimiterDecision.refused RateLimitRefusal.HourlyCapExceeded
  else if cfg.dailyCap ≤ (usage.filter (fun t => now - t < 1440)).length then
    LimiterDecision.refused RateLimitRefusal.DailyCapExceeded
  else
    LimiterDecision.allowed

/-- What the pipeline does with one eligible email. -/
inductive EmailOutcome where
  | drafted
  | skipped (r : RateLimitRefusal)
deriving Repr, DecidableEq

/-- Modelled from the spec: the caller of the limiter treats a typed refusal
as "skip this email", never as an error. -/
def processEligibleEmail (cfg : LimiterConfig) (runCount : Nat)
    (draftLog : List DraftLogEntry) (usage : List Nat) (sender : String)
    (now : Nat) : EmailOutcome :=
  match checkRateLimit cfg runCount draftLog usage sender now with
  | LimiterDecision.allowed => EmailOutcome.drafted
  | LimiterDecision.refused r => EmailOutcome.skipped r

/-- The PUT body of web/app/api/settings/route.ts: the filter configuration
JSON.  Each section is kept as its serialized subtree; a present section is
a JSON object, hence truthy. -/
structure FilterConfigBody where
  skip_drafting : Option String
  always_draft : Option String
  override : Option String
deriving Repr, DecidableEq

/-- Response of the settings route, stripped to the fields the handlers
set. -/
inductive SettingsResult where
  | okConfig (config : FilterConfigBody)
  | okUpdated
  | err (status : Nat) (error : String)
deriving Repr, DecidableEq

/-- The GET handler of web/app/api/settings/route.ts: read and parse the
config file; a missing file surfaces as the catch-all 500. -/
def getSettings (file : Option FilterConfigBody) : SettingsResult :=
  match file with
  | some config => SettingsResult.okConfig config
  | none => SettingsResult.err 500 "read failed"

/-- The PUT handler of web/app/api/settings/route.ts: reject a body lacking
the skip_drafting, always_draft or override section with a 400 and leave the
file untouched; otherwise overwrite the file with the body. -/
def putSettings (file : Option FilterConfigBody) (body : FilterConfigBody) :
    SettingsResult × Option FilterConfigBody :=
  if body.skip_drafting.isNone ∨ body.always_draft.isNone ∨
      body.override.isNone then
    (SettingsResult.err 400 "Invalid config structure", file)
  else
    (SettingsResult.okUpdated, some body)

/-! ## Helper lemmas -/

theorem find_map_update (l : List Draft) (id : Nat) (f : Draft → Draft)
    (hf : ∀ d, (f d).id = d.id) :
    (l.map (fun d => if d.id == id then f d else d)).find? (fun d => d.id == id)
      = (l.find? (fun d => d.id == id)).map f := by
  induction l with
  | nil => rfl
  | cons d l ih =>
    by_cases h : d.id = id
    · have hb : (d.id == id) = true := by simpa using h
      have hfb : ((f d).id == id) = true := by simpa [hf] using h
      simp only [List.map_cons]
      rw [show (if d.id == id then f d else d) = f d by simp [hb]]
      simp only [List.find?_cons, hb, hfb]
      rfl
    · have hb : (d.id == id) = false := by simpa using h
      simp only [List.map_cons]
      rw [show (if d.id == id then f d else d) = d by simp [hb]]
      simp only [List.find?_cons, hb]
      exact ih

theorem findDraft_updateDraft (s : Store) (id : Nat) (f : Draft → Draft)
    (hf : ∀ d, (f d).id = d.id) :
    findDraft (updateDraft s id f) id = (findDraft s id).map f :=
  find_map_update s.draft_responses id f hf

theorem findDraft_appendHistory (s : Store) (e : HistoryEvent) (id : Nat) :
    findDraft (appendHistory s e) id = findDraft s id := rfl

theorem findDraft_appendVersion (s : Store) (v : DraftVersion) (id : Nat) :
    findDraft (appendVersion s v) id = findDraft s id := rfl

theorem findDraft_updateDraft_some (s : Store) (id : Nat) (f : Draft → Draft)
    (hf : ∀ d, (f d).id = d.id) (d : Draft) (hd : findDraft s id = some d) :
    findDraft (updateDraft s id f) id = some (f d) := by
  rw [findDraft_updateDraft s id f hf, hd]
  rfl

/-- The status of the draft with the given id, as stored. -/
def statusOf (s : Store) (id : Nat) : Option String :=
  (findDraft s id).map Draft.status

/-- The original-generation text of the draft with the given id, as
stored. -/
def draftTextOf (s : Store) (id : Nat) : Option String :=
  (findDraft s id).map Draft.draft_text

theorem statusOf_appendHistory (s : Store) (e : HistoryEvent) (id : Nat) :
    statusOf (appendHistory s e) id = statusOf s id := rfl

theorem statusOf_appendVersion (s : Store) (v : DraftVersion) (id : Nat) :
    statusOf (appendVersion s v) id = statusOf s id := rfl

theorem statusOf_updateDraft (s : Store) (id : Nat) (f : Draft → Draft)
    (hf : ∀ d, (f d).id = d.id) (d : Draft) (hd : findDraft s id = some d) :
    statusOf (updateDraft s id f) id = some (f d).status := by
  unfold statusOf
  rw [findDraft_updateDraft s id f hf, hd]
  rfl

theorem draftTextOf_appendHistory (s : Store) (e : HistoryEvent) (id : Nat) :
    draftTextOf (appendHistory s e) id = draftTextOf s id := rfl

theorem draftTextOf_appendVersion (s : Store) (v : DraftVersion) (id : Nat) :
    draftTextOf (appendVersion s v) id = draftTextOf s id := rfl

theorem draftTextOf_updateDraft (s : Store) (id : Nat) (f : Draft → Draft)
    (hf : ∀ d, (f d).id = d.id) (hp : ∀ d, (f d).draft_text = d.draft_text) :
    draftTextOf (updateDraft s id f) id = draftTextOf s id := by
  unfold draftTextOf
  rw [findDraft_updateDraft s id f hf]
  cases findDraft s id with
  | none => rfl
  | some d => simp [hp]

/-! Equations unfolding `patch` and `aiEditComplete` one action at a
time. -/

theorem patch_approve (s : Store) (id : Nat) (data : PatchData) (now : String) :
    patch s id "approve" data now
      = (ApiResult.ok "approve" id,
        appendHistory (updateDraft s id (approveUpdate data now))
          ⟨id, "approved", jsOrD data.by_ "user", now, jsOr data.notes, none⟩) := by
  simp [patch]

theorem patch_reject (s : Store) (id : Nat) (data : PatchData) (now : String) :
    patch s id "reject" data now
      = (ApiResult.ok "reject" id,
        appendHistory (updateDraft s id (rejectUpdate data now))
          ⟨id, "rejected", jsOrD data.by_ "user", now, jsOr data.reason, none⟩) := by
  simp [patch]

theorem patch_edit (s : Store) (id : Nat) (data : PatchData) (now : String) :
    patch s id "edit" data now
      = (ApiResult.ok "edit" id,
        appendHistory (updateDraft s id (editUpdate data))
          ⟨id, "edited", jsOrD data.by_ "user", now, jsOr data.notes,
            some (Metadata.editLen data.text.length)⟩) := by
  simp [patch]

theorem patch_sent (s : Store) (id : Nat) (data : PatchData) (now : String) :
    patch s id "sent" data now
      = (ApiResult.ok "sent" id,
        appendHistory (updateDraft s id (sentUpdate data now))
          ⟨id, "sent", jsOrD data.by_ "user", now, jsOr data.notes,
            some (Metadata.sentVia (jsOrD data.via "manual"))⟩) := by
  simp [patch]

theorem patch_rate_ok (s : Store) (id : Nat) (data : PatchData) (now : String)
    (h1 : 1 ≤ data.score) (h2 : data.score ≤ 5) :
    patch s id "rate" data now
      = (ApiResult.ok "rate" id,
        appendHistory (updateDraft s id (rateUpdate data))
          ⟨id, "rated", jsOrD data.by_ "user", now, jsOr data.notes,
            some (Metadata.score data.score)⟩) := by
  have h : ¬(data.score < 1 ∨ data.score > 5) := by omega
  simp [patch, h]

theorem patch_rate_bad (s : Store) (id : Nat) (data : PatchData) (now : String)
    (h : data.score < 1 ∨ 5 < data.score) :
    patch s id "rate" data now
      = (ApiResult.clientError 400 "Score must be 1-5", s) := by
  simp [patch]
  intro h1
  omega

theorem patch_save_version_found (s : Store) (id : Nat) (data : PatchData)
    (now : String) (d : Draft) (hd : findDraft s id = some d) :
    patch s id "save_version" data now
      = (ApiResult.ok "save_version" id,
        updateDraft (appendVersion s
            ⟨id, if d.total_versions = 0 then 1 else d.total_versions,
              d.draft_text, d.model_used, jsOrD data.by_ "user",
              jsOr data.notes⟩)
          id saveVersionUpdate) := by
  simp [patch, hd]

theorem patch_save_version_missing (s : Store) (id : Nat) (data : PatchData)
    (now : String) (hd : findDraft s id = none) :
    patch s id "save_version" data now = (ApiResult.ok "save_version" id, s) := by
  simp [patch, hd]

theorem patch_restore_found (s : Store) (id : Nat) (data : PatchData)
    (now : String) (version : DraftVersion)
    (hv : s.draft_versions.find? (fun v =>
      v.draft_id == id && v.version_number == data.version) = some version) :
    patch s id "restore_version" data now
      = (ApiResult.ok "restore_version" id,
        appendHistory (updateDraft s id (restoreUpdate version data.version))
          ⟨id, "restored", jsOrD data.by_ "user", now,
            some ("Restored to version " ++ toString data.version),
            some (Metadata.version data.version)⟩) := by
  simp [patch, hv]

theorem patch_restore_missing (s : Store) (id : Nat) (data : PatchData)
    (now : String)
    (hv : s.draft_versions.find? (fun v =>
      v.draft_id == id && v.version_number == data.version) = none) :
    patch s id "restore_version" data now
      = (ApiResult.clientError 404
        ("Version " ++ toString data.version ++ " not found"), s) := by
  simp [patch, hv]

theorem aiEditComplete_found (s : Store) (id : Nat)
    (instruction : Option String) (newDraftText : String)
    (model : Option String) (now : String) (d : Draft)
    (ht : newDraftText ≠ "") (hd : findDraft s id = some d) :
    aiEditComplete s id instruction newDraftText model now
      = (ApiResult.okAiEdit id
          (if d.total_versions = 0 then 1 else d.total_versions),
        appendHistory
          (updateDraft (appendVersion s
              ⟨id, if d.total_versions = 0 then 1 else d.total_versions,
                d.draft_text, d.model_used, "ai-edit",
                some (jsOrD instruction "AI edit")⟩)
            id (aiEditUpdate newDraftText model))
          ⟨id, "ai_edited", "claude-opus", now,
            some (jsOrD instruction "AI edit"),
            some (Metadata.aiEdit (jsOrD model "claude-opus") instruction
              d.draft_text.length newDraftText.length)⟩) := by
  simp [aiEditComplete, ht, hd]

theorem patch_default (s : Store) (id : Nat) (a : String) (data : PatchData)
    (now : String) (h1 : a ≠ "approve") (h2 : a ≠ "reject") (h3 : a ≠ "edit")
    (h4 : a ≠ "sent") (h5 : a ≠ "rate") (h6 : a ≠ "save_version")
    (h7 : a ≠ "restore_version") :
    patch s id a data now
      = (ApiResult.clientError 400 ("Unknown action: " ++ a), s) := by
  simp [patch, h1, h2, h3, h4, h5, h6, h7]

theorem aiEditComplete_empty (s : Store) (id : Nat)
    (instruction : Option String) (newDraftText : String)
    (model : Option String) (now : String) (ht : newDraftText = "") :
    aiEditComplete s id instruction newDraftText model now
      = (ApiResult.clientError 400 "newDraftText is required", s) := by
  simp [aiEditComplete, ht]

theorem aiEditComplete_missing (s : Store) (id : Nat)
    (instruction : Option String) (newDraftText : String)
    (model : Option String) (now : String) (ht : newDraftText ≠ "")
    (hd : findDraft s id = none) :
    aiEditComplete s id instruction newDraftText model now
      = (ApiResult.clientError 404 "Draft not found", s) := by
  simp [aiEditComplete, ht, hd]

theorem history_appendHistory (s : Store) (e : HistoryEvent) :
    (appendHistory s e).draft_approval_history
      = s.draft_approval_history ++ [e] := rfl

theorem history_updateDraft (s : Store) (id : Nat) (f : Draft → Draft) :
    (updateDraft s id f).draft_approval_history
      = s.draft_approval_history := rfl

theorem history_appendVersion (s : Store) (v : DraftVersion) :
    (appendVersion s v).draft_approval_history
      = s.draft_approval_history := rfl

theorem versions_appendHistory (s : Store) (e : HistoryEvent) :
    (appendHistory s e).draft_versions = s.draft_versions := rfl

theorem versions_updateDraft (s : Store) (id : Nat) (f : Draft → Draft) :
    (updateDraft s id f).draft_versions = s.draft_versions := rfl

theorem versions_appendVersion (s : Store) (v : DraftVersion) :
    (appendVersion s v).draft_versions = s.draft_versions ++ [v] := rfl

theorem containsKey_ingest (store : List EmailRecord) (m : RawMessage) :
    containsKey (ingest store m).2 (dedupKey m) = true := by
  unfold ingest
  by_cases hc : containsKey store (dedupKey m) = true
  · simp [hc]
  · simp only [hc, if_false, Bool.false_eq_true, if_neg]
    simp [containsKey, List.any_append]

theorem statusOf_updateDraft_of_preserves (s : Store) (id : Nat)
    (f : Draft → Draft) (hf : ∀ d, (f d).id = d.id)
    (hs : ∀ d, (f d).status = d.status) :
    statusOf (updateDraft s id f) id = statusOf s id := by
  unfold statusOf
  rw [findDraft_updateDraft s id f hf]
  cases findDraft s id with
  | none => rfl
  | some d => simp [hs]

/-! ## Concrete sample stores -/

/-- A draft row as generation creates it: given status, one version, no
approval metadata yet. -/
def mkDraft (id : Nat) (txt status : String) : Draft :=
  ⟨id, "e1", txt, some "claude-sonnet-4", status,
    none, none, none, none, none, none, none, none, none, none, 1, 1⟩

/-- A store holding one draft already marked sent. -/
def storeSent : Store := ⟨[mkDraft 1 "orig" "sent"], [], []⟩

/-- A store holding one fresh pending draft. -/
def pendingStore : Store := ⟨[mkDraft 1 "orig" "pending"], [], []⟩

/-- A store holding one draft at version 2 with a snapshot of version 1. -/
def restoreStore : Store :=
  ⟨[{ mkDraft 1 "orig" "pending" with current_version := 2, total_versions := 2 }],
    [], [⟨1, 1, "v1text", some "claude-sonnet-4", "user", none⟩]⟩

/-! ## C1 — status transitions -/

/-- C1 counterexample: approving a Draft whose status is 'sent' is not
rejected as an invalid transition — the call succeeds and overwrites the
status with 'approved', moving along the forbidden edge sent → approved. -/
theorem approve_on_sent_succeeds :
    statusOf storeSent 1 = some "sent" ∧
    (patch storeSent 1 "approve" {} "t1").1 = ApiResult.ok "approve" 1 ∧
    statusOf (patch storeSent 1 "approve" {} "t1").2 1 = some "approved" := by
  decide

/-- C1 (amended): the PATCH handler performs no transition validation:
approve, reject and sent unconditionally succeed and set the status to
'approved', 'rejected' and 'sent' respectively whatever the current status,
while edit, rate, save_version and restore_version never change the
status.  No lifecycle action is ever rejected as an invalid transition. -/
theorem patch_status_transitions (s : Store) (id : Nat) (data : PatchData)
    (now : String) (d : Draft) (hd : findDraft s id = some d) :
    ((patch s id "approve" data now).1 = ApiResult.ok "approve" id ∧
      statusOf (patch s id "approve" data now).2 id = some "approved") ∧
    ((patch s id "reject" data now).1 = ApiResult.ok "reject" id ∧
      statusOf (patch s id "reject" data now).2 id = some "rejected") ∧
    ((patch s id "sent" data now).1 = ApiResult.ok "sent" id ∧
      statusOf (patch s id "sent" data now).2 id = some "sent") ∧
    statusOf (patch s id "edit" data now).2 id = some d.status ∧
    statusOf (patch s id "rate" data now).2 id = some d.status ∧
    statusOf (patch s id "save_version" data now).2 id = some d.status ∧
    statusOf (patch s id "restore_version" data now).2 id = some d.status := by
  refine ⟨⟨?_, ?_⟩, ⟨?_, ?_⟩, ⟨?_, ?_⟩, ?_, ?_, ?_, ?_⟩
  · simp [patch_approve]
  · simp only [patch_approve]
    rw [statusOf_appendHistory,
      statusOf_updateDraft s id (approveUpdate data now) (fun _ => rfl) d hd]
    rfl
  · simp [patch_reject]
  · simp only [patch_reject]
    rw [statusOf_appendHistory,
      statusOf_updateDraft s id (rejectUpdate data now) (fun _ => rfl) d hd]
    rfl
  · simp [patch_sent]
  · simp only [patch_sent]
    rw [statusOf_appendHistory,
      statusOf_updateDraft s id (sentUpdate data now) (fun _ => rfl) d hd]
    rfl
  · simp only [patch_edit]
    rw [statusOf_appendHistory,
      statusOf_updateDraft s id (editUpdate data) (fun _ => rfl) d hd]
    rfl
  · by_cases hs : data.score < 1 ∨ data.score > 5
    · rw [patch_rate_bad s id data now (by omega)]
      simp [statusOf, hd]
    · push_neg at hs
      simp only [patch_rate_ok s id data now (by omega) (by omega)]
      rw [statusOf_appendHistory,
        statusOf_updateDraft s id (rateUpdate data) (fun _ => rfl) d hd]
      rfl
  · simp only [patch_save_version_found s id data now d hd]
    rw [statusOf_updateDraft_of_preserves _ id saveVersionUpdate
      (fun _ => rfl) (fun _ => rfl), statusOf_appendVersion]
    simp [statusOf, hd]
  · cases hfv : s.draft_versions.find? (fun v =>
        v.draft_id == id && v.version_number == data.version) with
    | none =>
      rw [patch_restore_missing s id data now hfv]
      simp [statusOf, hd]
    | some version =>
      simp only [patch_restore_found s id data now version hfv]
      rw [statusOf_appendHistory,
        statusOf_updateDraft_of_preserves s id
          (restoreUpdate version data.version) (fun _ => rfl) (fun _ => rfl)]
      simp [statusOf, hd]

/-- Witness for C1 on the concrete store whose only draft is 'sent'. -/
theorem patch_status_transitions_witness :
    findDraft storeSent 1 = some (mkDraft 1 "orig" "sent") ∧
    (((patch storeSent 1 "approve" {} "t1").1 = ApiResult.ok "approve" 1 ∧
      statusOf (patch storeSent 1 "approve" {} "t1").2 1 = some "approved") ∧
    ((patch storeSent 1 "reject" {} "t1").1 = ApiResult.ok "reject" 1 ∧
      statusOf (patch storeSent 1 "reject" {} "t1").2 1 = some "rejected") ∧
    ((patch storeSent 1 "sent" {} "t1").1 = ApiResult.ok "sent" 1 ∧
      statusOf (patch storeSent 1 "sent" {} "t1").2 1 = some "sent") ∧
    statusOf (patch storeSent 1 "edit" {} "t1").2 1 = some "sent" ∧
    statusOf (patch storeSent 1 "rate" {} "t1").2 1 = some "sent" ∧
    statusOf (patch storeSent 1 "save_version" {} "t1").2 1 = some "sent" ∧
    statusOf (patch storeSent 1 "restore_version" {} "t1").2 1 = some "sent") :=
  ⟨rfl, patch_status_transitions storeSent 1 {} "t1" (mkDraft 1 "orig" "sent") rfl⟩

/-! ## C2 — editing and version counters -/

/-- The pending store after three plain edits. -/
def editThrice : Store :=
  (patch (patch (patch pendingStore 1 "edit" { text := "e1" } "t1").2
      1 "edit" { text := "e2" } "t2").2
    1 "edit" { text := "e3" } "t3").2

/-- The pending store after three AI-edit completions. -/
def aiEditThrice : Store :=
  (aiEditComplete (aiEditComplete (aiEditComplete pendingStore
        1 none "a1" none "t1").2
      1 none "a2" none "t2").2
    1 none "a3" none "t3").2

theorem findDraft_after_snapshot_update (s : Store) (v : DraftVersion)
    (id : Nat) (f : Draft → Draft) (hf : ∀ d, (f d).id = d.id) (d : Draft)
    (hd : findDraft s id = some d) :
    findDraft (updateDraft (appendVersion s v) id f) id = some (f d) := by
  rw [findDraft_updateDraft (appendVersion s v) id f hf,
    findDraft_appendVersion, hd]
  rfl

/-- C2 counterexample: editing a pending Draft three times through the edit
action leaves totalVersions at 1 — not 4 — and creates no DraftVersion
rows; only the live text reflects the third edit. -/
theorem edit_three_times_total_versions :
    (findDraft editThrice 1).map Draft.total_versions = some 1 ∧
    ¬((findDraft editThrice 1).map Draft.total_versions = some 4) ∧
    editThrice.draft_versions = [] ∧
    (findDraft editThrice 1).map liveText = some "e3" := by
  decide

/-- C2 (amended): a plain edit sets editedText and touches neither version
counter nor the DraftVersion table; the AI-edit/regeneration path snapshots
the current draftText into DraftVersion at totalVersions and increments
totalVersions by exactly 1, leaving currentVersion unchanged; hence three
AI edits of a fresh pending Draft yield totalVersions = 4, DraftVersion
rows numbered 1–3, and live text equal to the third edit. -/
theorem edit_and_ai_edit_versioning (s : Store) (id : Nat) (data : PatchData)
    (now : String) (d : Draft) (hd : findDraft s id = some d)
    (instruction model : Option String) (t now2 : String) (ht : t ≠ "") :
    (findDraft (patch s id "edit" data now).2 id = some (editUpdate data d) ∧
      (editUpdate data d).edited_text = some data.text ∧
      (editUpdate data d).total_versions = d.total_versions ∧
      (editUpdate data d).current_version = d.current_version ∧
      (patch s id "edit" data now).2.draft_versions = s.draft_versions) ∧
    (findDraft (aiEditComplete s id instruction t model now2).2 id
        = some (aiEditUpdate t model d) ∧
      (aiEditUpdate t model d).edited_text = some t ∧
      (aiEditUpdate t model d).total_versions = d.total_versions + 1 ∧
      (aiEditUpdate t model d).current_version = d.current_version ∧
      (aiEditComplete s id instruction t model now2).2.draft_versions
        = s.draft_versions ++
          [⟨id, if d.total_versions = 0 then 1 else d.total_versions,
            d.draft_text, d.model_used, "ai-edit",
            some (jsOrD instruction "AI edit")⟩]) ∧
    ((findDraft aiEditThrice 1).map Draft.total_versions = some 4 ∧
      aiEditThrice.draft_versions.map DraftVersion.version_number = [1, 2, 3] ∧
      (findDraft aiEditThrice 1).map liveText = some "a3") := by
  refine ⟨⟨?_, rfl, rfl, rfl, ?_⟩, ⟨?_, rfl, rfl, rfl, ?_⟩, ?_⟩
  · simp only [patch_edit]
    rw [findDraft_appendHistory,
      findDraft_updateDraft_some s id (editUpdate data) (fun _ => rfl) d hd]
  · simp only [patch_edit]
    rfl
  · simp only [aiEditComplete_found s id instruction t model now2 d ht hd]
    rw [findDraft_appendHistory,
      findDraft_after_snapshot_update s _ id (aiEditUpdate t model)
        (fun _ => rfl) d hd]
  · simp only [aiEditComplete_found s id instruction t model now2 d ht hd]
    rfl
  · decide

/-- Witness for C2 on the fresh pending store, with plain edit "e1" and AI
edit "a1". -/
theorem edit_and_ai_edit_versioning_witness :
    (findDraft pendingStore 1 = some (mkDraft 1 "orig" "pending") ∧
      ("a1" : String) ≠ "") ∧
    ((findDraft (patch pendingStore 1 "edit" { text := "e1" } "t1").2 1
        = some (editUpdate { text := "e1" } (mkDraft 1 "orig" "pending")) ∧
      (editUpdate { text := "e1" } (mkDraft 1 "orig" "pending")).edited_text
        = some "e1" ∧
      (editUpdate { text := "e1" } (mkDraft 1 "orig" "pending")).total_versions
        = 1 ∧
      (editUpdate { text := "e1" } (mkDraft 1 "orig" "pending")).current_version
        = 1 ∧
      (patch pendingStore 1 "edit" { text := "e1" } "t1").2.draft_versions
        = []) ∧
    (findDraft (aiEditComplete pendingStore 1 none "a1" none "t2").2 1
        = some (aiEditUpdate "a1" none (mkDraft 1 "orig" "pending")) ∧
      (aiEditUpdate "a1" none (mkDraft 1 "orig" "pending")).edited_text
        = some "a1" ∧
      (aiEditUpdate "a1" none (mkDraft 1 "orig" "pending")).total_versions
        = 2 ∧
      (aiEditUpdate "a1" none (mkDraft 1 "orig" "pending")).current_version
        = 1 ∧
      (aiEditComplete pendingStore 1 none "a1" none "t2").2.draft_versions
        = [⟨1, 1, "orig", some "claude-sonnet-4", "ai-edit", some "AI edit"⟩]) ∧
    ((findDraft aiEditThrice 1).map Draft.total_versions = some 4 ∧
      aiEditThrice.draft_versions.map DraftVersion.version_number = [1, 2, 3] ∧
      (findDraft aiEditThrice 1).map liveText = some "a3")) :=
  ⟨⟨rfl, by decide⟩,
    edit_and_ai_edit_versioning pendingStore 1 { text := "e1" } "t1"
      (mkDraft 1 "orig" "pending") rfl none none "a1" "t2" (by decide)⟩

/-! ## C3 — rating validation -/

/-- C3 counterexample: rating a Draft that is still 'pending' with score 3
succeeds — the handler never checks the status — recording the feedback
score, where the claim requires rejection for a Draft that has not left
'pending'. -/
theorem rate_pending_succeeds :
    statusOf pendingStore 1 = some "pending" ∧
    (patch pendingStore 1 "rate" { score := 3 } "t1").1 = ApiResult.ok "rate" 1 ∧
    (findDraft (patch pendingStore 1 "rate" { score := 3 } "t1").2 1).map
      Draft.feedback_score = some (some 3) := by
  decide

/-- C3 (amended): rate succeeds exactly when 1 ≤ score ≤ 5, regardless of
the Draft's status; on success it records the feedback score and appends
one 'rated' ApprovalHistoryEvent, and an out-of-range score (such as 6) is
rejected as invalid input with the store unchanged. -/
theorem rate_score_validation (s : Store) (id : Nat) (data : PatchData)
    (now : String) :
    ((patch s id "rate" data now).1 = ApiResult.ok "rate" id
        ↔ 1 ≤ data.score ∧ data.score ≤ 5) ∧
    (1 ≤ data.score → data.score ≤ 5 →
      patch s id "rate" data now
        = (ApiResult.ok "rate" id,
          appendHistory (updateDraft s id (rateUpdate data))
            ⟨id, "rated", jsOrD data.by_ "user", now, jsOr data.notes,
              some (Metadata.score data.score)⟩)) ∧
    (data.score < 1 ∨ 5 < data.score →
      patch s id "rate" data now
        = (ApiResult.clientError 400 "Score must be 1-5", s)) := by
  refine ⟨⟨?_, ?_⟩, ?_, ?_⟩
  · intro hok
    by_cases h1 : 1 ≤ data.score ∧ data.score ≤ 5
    · exact h1
    · exfalso
      rw [patch_rate_bad s id data now (by omega)] at hok
      simp at hok
  · intro h
    rw [patch_rate_ok s id data now h.1 h.2]
  · intro h1 h2
    exact patch_rate_ok s id data now h1 h2
  · intro h
    exact patch_rate_bad s id data now h

/-- Witness for C3: score 3 on the pending store succeeds, score 6 is
rejected without touching the store. -/
theorem rate_score_validation_witness :
    (1 ≤ (3 : Int) ∧ (3 : Int) ≤ 5 ∧ ((6 : Int) < 1 ∨ 5 < (6 : Int))) ∧
    patch pendingStore 1 "rate" { score := 3 } "t1"
      = (ApiResult.ok "rate" 1,
        appendHistory (updateDraft pendingStore 1 (rateUpdate { score := 3 }))
          ⟨1, "rated", "user", "t1", none, some (Metadata.score 3)⟩) ∧
    patch pendingStore 1 "rate" { score := 6 } "t1"
      = (ApiResult.clientError 400 "Score must be 1-5", pendingStore) :=
  ⟨by decide,
    (rate_score_validation pendingStore 1 { score := 3 } "t1").2.1
      (by decide) (by decide),
    (rate_score_validation pendingStore 1 { score := 6 } "t1").2.2
      (by decide)⟩

/-! ## C4 — restore semantics -/

/-- C4 counterexample: restoring version 1 of a draft currently at version
2 succeeds and decreases currentVersion from 2 to 1, contradicting that
restore never decreases the version counters. -/
theorem restore_decreases_current_version :
    (findDraft restoreStore 1).map Draft.current_version = some 2 ∧
    (patch restoreStore 1 "restore_version" { version := 1 } "t1").1
      = ApiResult.ok "restore_version" 1 ∧
    (findDraft
        (patch restoreStore 1 "restore_version" { version := 1 } "t1").2 1).map
      Draft.current_version = some 1 := by
  decide

/-- C4 (amended): restore(version) of an existing DraftVersion copies the
snapshot's text into the live draft, sets currentVersion to the restored
version number — which may be lower than before — leaves totalVersions and
the DraftVersion table unchanged, and appends one 'restored' event;
restoring a version that does not exist fails with a 404 and leaves the
store unchanged. -/
theorem restore_version_behavior (s : Store) (id : Nat) (data : PatchData)
    (now : String) (d : Draft) (hd : findDraft s id = some d) :
    (∀ version, s.draft_versions.find? (fun v =>
        v.draft_id == id && v.version_number == data.version) = some version →
      (patch s id "restore_version" data now).1
          = ApiResult.ok "restore_version" id ∧
      findDraft (patch s id "restore_version" data now).2 id
        = some (restoreUpdate version data.version d) ∧
      (restoreUpdate version data.version d).draft_text = version.draft_text ∧
      (restoreUpdate version data.version d).current_version = data.version ∧
      (restoreUpdate version data.version d).total_versions
        = d.total_versions ∧
      (patch s id "restore_version" data now).2.draft_versions
        = s.draft_versions ∧
      (patch s id "restore_version" data now).2.draft_approval_history
        = s.draft_approval_history ++
          [⟨id, "restored", jsOrD data.by_ "user", now,
            some ("Restored to version " ++ toString data.version),
            some (Metadata.version data.version)⟩]) ∧
    (s.draft_versions.find? (fun v =>
        v.draft_id == id && v.version_number == data.version) = none →
      patch s id "restore_version" data now
        = (ApiResult.clientError 404
          ("Version " ++ toString data.version ++ " not found"), s)) := by
  constructor
  · intro version hv
    refine ⟨?_, ?_, rfl, rfl, rfl, ?_, ?_⟩
    · simp only [patch_restore_found s id data now version hv]
    · simp only [patch_restore_found s id data now version hv]
      rw [findDraft_appendHistory,
        findDraft_updateDraft_some s id (restoreUpdate version data.version)
          (fun _ => rfl) d hd]
    · simp only [patch_restore_found s id data now version hv]
      rfl
    · simp only [patch_restore_found s id data now version hv]
      rfl
  · intro hv
    exact patch_restore_missing s id data now hv

/-- Witness for C4: restoring existing version 1 and missing version 5 on
the concrete two-version store. -/
theorem restore_version_behavior_witness :
    (findDraft restoreStore 1
        = some { mkDraft 1 "orig" "pending" with
                  current_version := 2, total_versions := 2 } ∧
      restoreStore.draft_versions.find? (fun v =>
          v.draft_id == 1 && v.version_number == (1 : Nat))
        = some ⟨1, 1, "v1text", some "claude-sonnet-4", "user", none⟩ ∧
      restoreStore.draft_versions.find? (fun v =>
          v.draft_id == 1 && v.version_number == (5 : Nat)) = none) ∧
    ((patch restoreStore 1 "restore_version" { version := 1 } "t1").1
        = ApiResult.ok "restore_version" 1 ∧
      findDraft (patch restoreStore 1 "restore_version" { version := 1 } "t1").2 1
        = some (restoreUpdate ⟨1, 1, "v1text", some "claude-sonnet-4", "user", none⟩ 1
            { mkDraft 1 "orig" "pending" with
              current_version := 2, total_versions := 2 }) ∧
      (patch restoreStore 1 "restore_version" { version := 1 } "t1").2.draft_versions
        = restoreStore.draft_versions ∧
      (patch restoreStore 1 "restore_version" { version := 1 } "t1").2.draft_approval_history
        = [⟨1, "restored", "user", "t1", some "Restored to version 1",
            some (Metadata.version 1)⟩]) ∧
    patch restoreStore 1 "restore_version" { version := 5 } "t1"
      = (ApiResult.clientError 404 "Version 5 not found", restoreStore) :=
  ⟨⟨rfl, rfl, rfl⟩,
    (fun h => ⟨h.1, h.2.1, h.2.2.2.2.2.1, h.2.2.2.2.2.2⟩)
      ((restore_version_behavior restoreStore 1 { version := 1 } "t1"
          { mkDraft 1 "orig" "pending" with
            current_version := 2, total_versions := 2 } rfl).1
        ⟨1, 1, "v1text", some "claude-sonnet-4", "user", none⟩ rfl),
    (restore_version_behavior restoreStore 1 { version := 5 } "t1"
        { mkDraft 1 "orig" "pending" with
          current_version := 2, total_versions := 2 } rfl).2 rfl⟩

/-! ## C5 — draftText immutability -/

/-- C5 counterexample: restore_version writes draft_text — the field the
claim calls immutable — replacing the original generation "orig" with the
snapshot text "v1text". -/
theorem restore_overwrites_draft_text :
    draftTextOf restoreStore 1 = some "orig" ∧
    draftTextOf
        (patch restoreStore 1 "restore_version" { version := 1 } "t1").2 1
      = some "v1text" ∧
    ("v1text" : String) ≠ "orig" := by
  decide

/-- C5 (amended): every draft operation except restore_version — approve,
reject, edit, sent, rate, save_version, unknown actions, and the AI-edit
completion — leaves draftText untouched; restore_version alone writes
draftText, setting it to the named snapshot's text. -/
theorem draft_text_immutability (s : Store) (id : Nat) (a : String)
    (data : PatchData) (now : String) (instruction model : Option String)
    (t now2 : String) :
    (a ≠ "restore_version" →
      draftTextOf (patch s id a data now).2 id = draftTextOf s id) ∧
    draftTextOf (aiEditComplete s id instruction t model now2).2 id
      = draftTextOf s id ∧
    (∀ version d, s.draft_versions.find? (fun v =>
        v.draft_id == id && v.version_number == data.version) = some version →
      findDraft s id = some d →
      draftTextOf (patch s id "restore_version" data now).2 id
        = some version.draft_text) := by
  refine ⟨?_, ?_, ?_⟩
  · intro ha
    by_cases h1 : a = "approve"
    · subst h1
      simp only [patch_approve]
      rw [draftTextOf_appendHistory, draftTextOf_updateDraft s id
        (approveUpdate data now) (fun _ => rfl) (fun _ => rfl)]
    by_cases h2 : a = "reject"
    · subst h2
      simp only [patch_reject]
      rw [draftTextOf_appendHistory, draftTextOf_updateDraft s id
        (rejectUpdate data now) (fun _ => rfl) (fun _ => rfl)]
    by_cases h3 : a = "edit"
    · subst h3
      simp only [patch_edit]
      rw [draftTextOf_appendHistory, draftTextOf_updateDraft s id
        (editUpdate data) (fun _ => rfl) (fun _ => rfl)]
    by_cases h4 : a = "sent"
    · subst h4
      simp only [patch_sent]
      rw [draftTextOf_appendHistory, draftTextOf_updateDraft s id
        (sentUpdate data now) (fun _ => rfl) (fun _ => rfl)]
    by_cases h5 : a = "rate"
    · subst h5
      by_cases hs : data.score < 1 ∨ data.score > 5
      · simp only [patch_rate_bad s id data now (by omega)]
      · push_neg at hs
        simp only [patch_rate_ok s id data now (by omega) (by omega)]
        rw [draftTextOf_appendHistory, draftTextOf_updateDraft s id
          (rateUpdate data) (fun _ => rfl) (fun _ => rfl)]
    by_cases h6 : a = "save_version"
    · subst h6
      cases hdd : findDraft s id with
      | none => simp only [patch_save_version_missing s id data now hdd]
      | some d0 =>
        simp only [patch_save_version_found s id data now d0 hdd]
        rw [draftTextOf_updateDraft _ id saveVersionUpdate (fun _ => rfl)
          (fun _ => rfl), draftTextOf_appendVersion]
    simp only [patch_default s id a data now h1 h2 h3 h4 h5 h6 ha]
  · by_cases ht0 : t = ""
    · simp only [aiEditComplete_empty s id instruction t model now2 ht0]
    · cases hdd : findDraft s id with
      | none =>
        simp only [aiEditComplete_missing s id instruction t model now2
          ht0 hdd]
      | some d0 =>
        simp only [aiEditComplete_found s id instruction t model now2 d0
          ht0 hdd]
        rw [draftTextOf_appendHistory, draftTextOf_updateDraft _ id
          (aiEditUpdate t model) (fun _ => rfl) (fun _ => rfl),
          draftTextOf_appendVersion]
  · intro version d0 hv hdd
    simp only [patch_restore_found s id data now version hv]
    rw [draftTextOf_appendHistory]
    unfold draftTextOf
    rw [findDraft_updateDraft_some s id (restoreUpdate version data.version)
      (fun _ => rfl) d0 hdd]
    rfl

/-- Witness for C5 on the two-version store: an edit and an AI edit keep
draftText, a restore of version 1 sets it to the snapshot text. -/
theorem draft_text_immutability_witness :
    (("edit" : String) ≠ "restore_version" ∧
      restoreStore.draft_versions.find? (fun v =>
          v.draft_id == 1 && v.version_number == (1 : Nat))
        = some ⟨1, 1, "v1text", some "claude-sonnet-4", "user", none⟩ ∧
      findDraft restoreStore 1
        = some { mkDraft 1 "orig" "pending" with
                  current_version := 2, total_versions := 2 }) ∧
    (draftTextOf (patch restoreStore 1 "edit" { version := 1 } "t1").2 1
        = draftTextOf restoreStore 1 ∧
      draftTextOf (aiEditComplete restoreStore 1 none "a1" none "t2").2 1
        = draftTextOf restoreStore 1 ∧
      draftTextOf
          (patch restoreStore 1 "restore_version" { version := 1 } "t1").2 1
        = some "v1text") :=
  ⟨⟨by decide, rfl, rfl⟩,
    (draft_text_immutability restoreStore 1 "edit" { version := 1 } "t1"
        none none "a1" "t2").1 (by decide),
    (draft_text_immutability restoreStore 1 "edit" { version := 1 } "t1"
        none none "a1" "t2").2.1,
    (draft_text_immutability restoreStore 1 "edit" { version := 1 } "t1"
        none none "a1" "t2").2.2
      ⟨1, 1, "v1text", some "claude-sonnet-4", "user", none⟩
      { mkDraft 1 "orig" "pending" with
        current_version := 2, total_versions := 2 } rfl rfl⟩

/-! ## C6 — audit-trail discipline -/

/-- C6 counterexample: save_version — the version-snapshotting regeneration
step — succeeds, inserts a DraftVersion row and bumps totalVersions, yet
appends zero ApprovalHistoryEvents, contradicting "exactly one event per
successful state-changing operation". -/
theorem save_version_appends_no_event :
    (patch pendingStore 1 "save_version" {} "t1").1
      = ApiResult.ok "save_version" 1 ∧
    (patch pendingStore 1 "save_version" {} "t1").2.draft_versions.length = 1 ∧
    (findDraft (patch pendingStore 1 "save_version" {} "t1").2 1).map
      Draft.total_versions = some 2 ∧
    (patch pendingStore 1 "save_version" {} "t1").2.draft_approval_history
      = [] := by
  decide

/-- C6 (amended): approve, reject, edit, sent, successful rate, successful
restore_version and the AI-edit completion each append exactly one
ApprovalHistoryEvent; save_version appends none even though it succeeds;
and no action ever mutates or deletes existing ApprovalHistoryEvent or
DraftVersion rows — both tables keep their existing rows as a prefix. -/
theorem history_append_discipline (s : Store) (id : Nat) (data : PatchData)
    (now : String) :
    (∀ a, (patch s id a data now).2.draft_approval_history.take
        s.draft_approval_history.length = s.draft_approval_history ∧
      (patch s id a data now).2.draft_versions.take s.draft_versions.length
        = s.draft_versions) ∧
    (patch s id "approve" data now).2.draft_approval_history.length
      = s.draft_approval_history.length + 1 ∧
    (patch s id "reject" data now).2.draft_approval_history.length
      = s.draft_approval_history.length + 1 ∧
    (patch s id "edit" data now).2.draft_approval_history.length
      = s.draft_approval_history.length + 1 ∧
    (patch s id "sent" data now).2.draft_approval_history.length
      = s.draft_approval_history.length + 1 ∧
    (1 ≤ data.score → data.score ≤ 5 →
      (patch s id "rate" data now).2.draft_approval_history.length
        = s.draft_approval_history.length + 1) ∧
    (∀ version, s.draft_versions.find? (fun v =>
        v.draft_id == id && v.version_number == data.version) = some version →
      (patch s id "restore_version" data now).2.draft_approval_history.length
        = s.draft_approval_history.length + 1) ∧
    ((patch s id "save_version" data now).1 = ApiResult.ok "save_version" id ∧
      (patch s id "save_version" data now).2.draft_approval_history
        = s.draft_approval_history) ∧
    (∀ instruction t model now2 d, t ≠ "" → findDraft s id = some d →
      (aiEditComplete s id instruction t model now2).2.draft_approval_history.length
        = s.draft_approval_history.length + 1) := by
  refine ⟨?_, ?_, ?_, ?_, ?_, ?_, ?_, ?_, ?_⟩
  · intro a
    by_cases h1 : a = "approve"
    · subst h1
      simp only [patch_approve, history_appendHistory, history_updateDraft,
        versions_appendHistory, versions_updateDraft]
      exact ⟨List.take_left _ _, List.take_length _⟩
    by_cases h2 : a = "reject"
    · subst h2
      simp only [patch_reject, history_appendHistory, history_updateDraft,
        versions_appendHistory, versions_updateDraft]
      exact ⟨List.take_left _ _, List.take_length _⟩
    by_cases h3 : a = "edit"
    · subst h3
      simp only [patch_edit, history_appendHistory, history_updateDraft,
        versions_appendHistory, versions_updateDraft]
      exact ⟨List.take_left _ _, List.take_length _⟩
    by_cases h4 : a = "sent"
    · subst h4
      simp only [patch_sent, history_appendHistory, history_updateDraft,
        versions_appendHistory, versions_updateDraft]
      exact ⟨List.take_left _ _, List.take_length _⟩
    by_cases h5 : a = "rate"
    · subst h5
      by_cases hs : data.score < 1 ∨ data.score > 5
      · simp only [patch_rate_bad s id data now (by omega)]
        exact ⟨List.take_length _, List.take_length _⟩
      · push_neg at hs
        simp only [patch_rate_ok s id data now (by omega) (by omega),
          history_appendHistory, history_updateDraft,
          versions_appendHistory, versions_updateDraft]
        exact ⟨List.take_left _ _, List.take_length _⟩
    by_cases h6 : a = "save_version"
    · subst h6
      cases hdd : findDraft s id with
      | none =>
        simp only [patch_save_version_missing s id data now hdd]
        exact ⟨List.take_length _, List.take_length _⟩
      | some d0 =>
        simp only [patch_save_version_found s id data now d0 hdd,
          history_updateDraft, history_appendVersion,
          versions_updateDraft, versions_appendVersion]
        exact ⟨List.take_length _, List.take_left _ _⟩
    by_cases h7 : a = "restore_version"
    · subst h7
      cases hfv : s.draft_versions.find? (fun v =>
          v.draft_id == id && v.version_number == data.version) with
      | none =>
        simp only [patch_restore_missing s id data now hfv]
        exact ⟨List.take_length _, List.take_length _⟩
      | some version =>
        simp only [patch_restore_found s id data now version hfv,
          history_appendHistory, history_updateDraft,
          versions_appendHistory, versions_updateDraft]
        exact ⟨List.take_left _ _, List.take_length _⟩
    simp only [patch_default s id a data now h1 h2 h3 h4 h5 h6 h7]
    exact ⟨List.take_length _, List.take_length _⟩
  · simp only [patch_approve, history_appendHistory, history_updateDraft]
    simp
  · simp only [patch_reject, history_appendHistory, history_updateDraft]
    simp
  · simp only [patch_edit, history_appendHistory, history_updateDraft]
    simp
  · simp only [patch_sent, history_appendHistory, history_updateDraft]
    simp
  · intro hs1 hs2
    simp only [patch_rate_ok s id data now hs1 hs2, history_appendHistory,
      history_updateDraft]
    simp
  · intro version hv
    simp only [patch_restore_found s id data now version hv,
      history_appendHistory, history_updateDraft]
    simp
  · cases hdd : findDraft s id with
    | none => exact ⟨by simp [patch_save_version_missing s id data now hdd],
        by simp [patch_save_version_missing s id data now hdd]⟩
    | some d0 =>
      refine ⟨?_, ?_⟩
      · simp [patch_save_version_found s id data now d0 hdd]
      · simp only [patch_save_version_found s id data now d0 hdd,
          history_updateDraft, history_appendVersion]
  · intro instruction t model now2 d ht hdd
    simp only [aiEditComplete_found s id instruction t model now2 d ht hdd,
      history_appendHistory, history_updateDraft, history_appendVersion]
    simp

/-- Witness for C6 on the two-version store, with score 3, restore of
version 1, and AI edit "x". -/
theorem history_append_discipline_witness :
    ((1 : Int) ≤ 3 ∧ (3 : Int) ≤ 5 ∧ ("x" : String) ≠ "" ∧
      findDraft restoreStore 1
        = some { mkDraft 1 "orig" "pending" with
                  current_version := 2, total_versions := 2 } ∧
      restoreStore.draft_versions.find? (fun v =>
          v.draft_id == 1 && v.version_number == (1 : Nat))
        = some ⟨1, 1, "v1text", some "claude-sonnet-4", "user", none⟩) ∧
    (((patch restoreStore 1 "edit" { score := 3, version := 1 } "t1").2.draft_approval_history.take
          restoreStore.draft_approval_history.length
        = restoreStore.draft_approval_history ∧
      (patch restoreStore 1 "edit" { score := 3, version := 1 } "t1").2.draft_versions.take
          restoreStore.draft_versions.length
        = restoreStore.draft_versions) ∧
    (patch restoreStore 1 "approve" { score := 3, version := 1 } "t1").2.draft_approval_history.length
      = restoreStore.draft_approval_history.length + 1 ∧
    (patch restoreStore 1 "rate" { score := 3, version := 1 } "t1").2.draft_approval_history.length
      = restoreStore.draft_approval_history.length + 1 ∧
    (patch restoreStore 1 "restore_version" { score := 3, version := 1 } "t1").2.draft_approval_history.length
      = restoreStore.draft_approval_history.length + 1 ∧
    ((patch restoreStore 1 "save_version" { score := 3, version := 1 } "t1").1
        = ApiResult.ok "save_version" 1 ∧
      (patch restoreStore 1 "save_version" { score := 3, version := 1 } "t1").2.draft_approval_history
        = restoreStore.draft_approval_history) ∧
    (aiEditComplete restoreStore 1 none "x" none "t2").2.draft_approval_history.length
      = restoreStore.draft_approval_history.length + 1) :=
  ⟨⟨by decide, by decide, by decide, rfl, rfl⟩,
    (history_append_discipline restoreStore 1 { score := 3, version := 1 }
      "t1").1 "edit",
    (history_append_discipline restoreStore 1 { score := 3, version := 1 }
      "t1").2.1,
    (history_append_discipline restoreStore 1 { score := 3, version := 1 }
      "t1").2.2.2.2.2.1 (by decide) (by decide),
    (history_append_discipline restoreStore 1 { score := 3, version := 1 }
        "t1").2.2.2.2.2.2.1
      ⟨1, 1, "v1text", some "claude-sonnet-4", "user", none⟩ rfl,
    (history_append_discipline restoreStore 1 { score := 3, version := 1 }
      "t1").2.2.2.2.2.2.2.1,
    (history_append_discipline restoreStore 1 { score := 3, version := 1 }
        "t1").2.2.2.2.2.2.2.2 none "x" none "t2"
      { mkDraft 1 "orig" "pending" with
        current_version := 2, total_versions := 2 } (by decide) rfl⟩

/-! ## C7 — deduplicating ingestion -/

/-- C7: re-ingesting a raw message whose fingerprint coincides with one
already ingested (same normalized subject, sender and minute bucket) never
creates a second Email record: the second ingest reports already-ingested
and leaves the store untouched, and ingestion preserves uniqueness of the
stored fingerprints. -/
theorem ingest_dedup (store : List EmailRecord) (m m' : RawMessage)
    (hkey : dedupKey m' = dedupKey m) :
    (ingest (ingest store m).2 m').1 = IngestResult.alreadyIngested ∧
    (ingest (ingest store m).2 m').2 = (ingest store m).2 ∧
    (store.Pairwise (fun a b => a.dedup_key ≠ b.dedup_key) →
      (ingest store m).2.Pairwise (fun a b => a.dedup_key ≠ b.dedup_key)) := by
  have hmem : containsKey (ingest store m).2 (dedupKey m') = true := by
    rw [hkey]; exact containsKey_ingest store m
  refine ⟨?_, ?_, ?_⟩
  · rw [ingest, if_pos hmem]
  · rw [ingest, if_pos hmem]
  · intro hp
    unfold ingest
    by_cases hc : containsKey store (dedupKey m) = true
    · simpa [hc] using hp
    · simp only [hc, Bool.false_eq_true, if_neg, if_false]
      rw [List.pairwise_append]
      refine ⟨hp, by simp, ?_⟩
      intro a ha b hb
      simp only [List.mem_singleton] at hb
      subst hb
      intro heq
      exact hc (by simp [containsKey, List.any_eq_true]; exact ⟨a, ha, heq⟩)

/-- Witness for C7: the same logical message — subject differing only in
case, timestamps 120 s and 150 s (one minute bucket) — ingested twice into
an empty store. -/
theorem ingest_dedup_witness :
    dedupKey ⟨"hi", "alice@co.com", 150, "b2"⟩
        = dedupKey ⟨"Hi", "alice@co.com", 120, "b"⟩ ∧
    ((ingest (ingest [] ⟨"Hi", "alice@co.com", 120, "b"⟩).2
          ⟨"hi", "alice@co.com", 150, "b2"⟩).1 = IngestResult.alreadyIngested ∧
      (ingest (ingest [] ⟨"Hi", "alice@co.com", 120, "b"⟩).2
          ⟨"hi", "alice@co.com", 150, "b2"⟩).2
        = (ingest [] ⟨"Hi", "alice@co.com", 120, "b"⟩).2 ∧
      (([] : List EmailRecord).Pairwise (fun a b => a.dedup_key ≠ b.dedup_key) →
        (ingest [] ⟨"Hi", "alice@co.com", 120, "b"⟩).2.Pairwise
          (fun a b => a.dedup_key ≠ b.dedup_key))) :=
  ⟨by decide, ingest_dedup [] _ _ (by decide)⟩

/-! ## C8 — per-sender dedup window refusal -/

/-- C8: when the run cap is not yet reached and a Draft for the sender was
already generated inside the dedup window, the limiter refuses with the
typed refusal DuplicateWindow and the caller records a skip, not an
error. -/
theorem limiter_duplicate_window (cfg : LimiterConfig) (runCount : Nat)
    (draftLog : List DraftLogEntry) (usage : List Nat) (sender : String)
    (now : Nat) (hrun : runCount < cfg.maxDraftsPerRun)
    (hdup : ∃ e ∈ draftLog, e.sender_email = sender ∧
      now - e.generated_at < cfg.dedupWindowMinutes) :
    checkRateLimit cfg runCount draftLog usage sender now
      = LimiterDecision.refused RateLimitRefusal.DuplicateWindow ∧
    processEligibleEmail cfg runCount draftLog usage sender now
      = EmailOutcome.skipped RateLimitRefusal.DuplicateWindow := by
  have h1 : ¬ cfg.maxDraftsPerRun ≤ runCount := Nat.not_le.mpr hrun
  have h2 : (draftLog.any fun e =>
      e.sender_email == sender && now - e.generated_at < cfg.dedupWindowMinutes)
        = true := by
    rw [List.any_eq_true]
    obtain ⟨e, he, hsend, hwin⟩ := hdup
    exact ⟨e, he, by simp [hsend, hwin]⟩
  constructor
  · simp [checkRateLimit, h1, h2]
  · simp [processEligibleEmail, checkRateLimit, h1, h2]

/-- Witness for C8: a Draft for alice@co.com generated at minute 90, a new
eligible email at minute 100, a 30-minute window, caps untouched. -/
theorem limiter_duplicate_window_witness :
    (0 < 10 ∧ ∃ e ∈ [(⟨"alice@co.com", 90⟩ : DraftLogEntry)],
        e.sender_email = "alice@co.com" ∧ 100 - e.generated_at < 30) ∧
    (checkRateLimit ⟨10, 30, 100, 500⟩ 0 [⟨"alice@co.com", 90⟩] []
          "alice@co.com" 100
        = LimiterDecision.refused RateLimitRefusal.DuplicateWindow ∧
      processEligibleEmail ⟨10, 30, 100, 500⟩ 0 [⟨"alice@co.com", 90⟩] []
          "alice@co.com" 100
        = EmailOutcome.skipped RateLimitRefusal.DuplicateWindow) :=
  ⟨⟨by decide, by decide⟩,
    limiter_duplicate_window ⟨10, 30, 100, 500⟩ 0 [⟨"alice@co.com", 90⟩] []
      "alice@co.com" 100 (by decide) (by decide)⟩

/-! ## C9 — settings write/read round trip -/

/-- C9: a well-formed filter configuration (all three sections present)
written through PUT and read back through GET returns the same
configuration, while a body lacking the skip, always-draft or override
section is rejected with a 400 and the stored configuration is
unchanged. -/
theorem settings_round_trip (file : Option FilterConfigBody)
    (body bad : FilterConfigBody)
    (hs : body.skip_drafting ≠ none) (ha : body.always_draft ≠ none)
    (ho : body.override ≠ none)
    (hbad : bad.skip_drafting = none ∨ bad.always_draft = none ∨
      bad.override = none) :
    putSettings file body = (SettingsResult.okUpdated, some body) ∧
    getSettings (putSettings file body).2 = SettingsResult.okConfig body ∧
    putSettings file bad = (SettingsResult.err 400 "Invalid config structure",
      file) := by
  refine ⟨?_, ?_, ?_⟩
  · simp [putSettings, Option.isNone_iff_eq_none, hs, ha, ho]
  · simp [putSettings, getSettings, Option.isNone_iff_eq_none, hs, ha, ho]
  · rcases hbad with h | h | h <;> simp [putSettings, Option.isNone_iff_eq_none, h]

/-- Witness for C9 on a concrete configuration and a body missing the skip
section. -/
theorem settings_round_trip_witness :
    ((some "sk" : Option String) ≠ none ∧ (some "ad" : Option String) ≠ none ∧
      (some "ov" : Option String) ≠ none ∧
      ((none : Option String) = none ∨ (some "ad" : Option String) = none ∨
        (some "ov" : Option String) = none)) ∧
    (putSettings none ⟨some "sk", some "ad", some "ov"⟩
        = (SettingsResult.okUpdated, some ⟨some "sk", some "ad", some "ov"⟩) ∧
      getSettings (putSettings none ⟨some "sk", some "ad", some "ov"⟩).2
        = SettingsResult.okConfig ⟨some "sk", some "ad", some "ov"⟩ ∧
      putSettings none ⟨none, some "ad", some "ov"⟩
        = (SettingsResult.err 400 "Invalid config structure", none)) :=
  ⟨⟨by decide, by decide, by decide, by decide⟩,
    settings_round_trip none ⟨some "sk", some "ad", some "ov"⟩
      ⟨none, some "ad", some "ov"⟩ (by decide) (by decide) (by decide)
      (by decide)⟩

/-! ## C10 — unknown PATCH action -/

/-- C10: a PATCH request whose action is none of approve, reject, edit,
sent, rate, save_version, restore_version returns a 400 naming the unknown
action and leaves the entire store unchanged. -/
theorem patch_unknown_action (s : Store) (id : Nat) (a : String)
    (data : PatchData) (now : String)
    (h : a ∉ (["approve", "reject", "edit", "sent", "rate", "save_version",
      "restore_version"] : List String)) :
    patch s id a data now
      = (ApiResult.clientError 400 ("Unknown action: " ++ a), s) := by
  simp only [List.mem_cons, List.not_mem_nil, or_false, not_or] at h
  obtain ⟨h1, h2, h3, h4, h5, h6, h7⟩ := h
  simp [patch, h1, h2, h3, h4, h5, h6, h7]

/-- Witness for C10 at the unrecognized action "dismiss". -/
theorem patch_unknown_action_witness :
    ("dismiss" : String) ∉ (["approve", "reject", "edit", "sent", "rate",
      "save_version", "restore_version"] : List String) ∧
    patch ⟨[], [], []⟩ 1 "dismiss" {} "2026-01-30T00:00:00Z"
      = (ApiResult.clientError 400 ("Unknown action: " ++ "dismiss"),
        (⟨[], [], []⟩ : Store)) :=
  ⟨by decide,
    patch_unknown_action ⟨[], [], []⟩ 1 "dismiss" {} "2026-01-30T00:00:00Z"
      (by decide)⟩

end EmailAutomation
